import Mathlib

/-!
Verification of the data-shaping subroutines of the streamlit-sea-ad
dashboard (`src/utils/prep.py` and `src/utils/io.py`), as a shallow
embedding in Lean 4.

A pandas `DataFrame` is modelled as a list of column names together with a
list of rows (each row a list of cell values).  A cell value is a number
(modelled as a rational, since the data are decimal literals), a string, a
boolean, or the missing value `NaN` (modelled as `Value.na`).
-/

namespace SeaAD

/-- Cell value of a pandas DataFrame: a number, a string, a boolean, or the
missing value `NaN`. -/
inductive Value where
  | num (q : ℚ)
  | str (s : String)
  | bool (b : Bool)
  | na
deriving DecidableEq, Repr

/-- Pandas DataFrame: named columns and rows of cells.  Row `i`, column
`cols[j]` holds `rows[i][j]`. -/
structure DataFrame where
  cols : List String
  rows : List (List Value)
deriving DecidableEq, Repr

/-- Empty frame, `pd.DataFrame()`. -/
def emptyDF : DataFrame := ⟨[], []⟩

/-- Cell of row `r` at column `c` of a frame with columns `cs`
(`r[cs.indexOf c]`). -/
def cellAt (cs : List String) (r : List Value) (c : String) : Value :=
  r.getD (cs.indexOf c) .na

/-- Column `c` of `df` as a list of values (pandas `df[c]`). -/
def getColVals (df : DataFrame) (c : String) : List Value :=
  df.rows.map (fun r => cellAt df.cols r c)

/-- Projection `df[cs]`: keep the columns named in `cs`, in that order. -/
def select (df : DataFrame) (cs : List String) : DataFrame :=
  ⟨cs, df.rows.map (fun r => cs.map (fun c => cellAt df.cols r c))⟩

/-- Column assignment `df[c] = vals`.  When `c` is already a column the
values are replaced in place; otherwise a new column named `c` is appended
on the right (pandas semantics). -/
def setCol (df : DataFrame) (c : String) (vals : List Value) : DataFrame :=
  if df.cols.contains c then
    ⟨df.cols, (df.rows.zip vals).map (fun rv => rv.1.set (df.cols.indexOf c) rv.2)⟩
  else
    ⟨df.cols ++ [c], (df.rows.zip vals).map (fun rv => rv.1 ++ [rv.2])⟩

/-- Inner merge `l.merge(r, on=key, how="inner")`: result columns are the
left columns followed by the non-key right columns; for each left row, in
order, one output row per right row (in order) whose key cell equals the
left row's key cell.  (The two frames here share no column name other than
the key, so pandas suffixing never triggers.) -/
def merge_inner (l r : DataFrame) (key : String) : DataFrame :=
  let rcols := r.cols.filter (fun c => !(c == key))
  ⟨l.cols ++ rcols,
   l.rows.flatMap (fun lr =>
     (r.rows.filter (fun rr => cellAt r.cols rr key == cellAt l.cols lr key)).map
       (fun rr => lr ++ rcols.map (fun c => cellAt r.cols rr c)))⟩

/-! ### Numeric coercion (`pd.to_numeric(·, errors="coerce")`) -/

/-- Value of a list of decimal digit characters. -/
def digitsVal (ds : List Char) : Nat :=
  ds.foldl (fun a c => a * 10 + (c.toNat - 48)) 0

/-- Parse an unsigned decimal literal `digits [ "." digits ]` (at least one
digit in total).  Exponent forms do not occur in this data set and are not
modelled. -/
def parseDec (cs : List Char) : Option ℚ :=
  let intPart := cs.takeWhile Char.isDigit
  let rest := cs.dropWhile Char.isDigit
  match rest with
  | [] => if intPart.isEmpty then none else some (digitsVal intPart)
  | '.' :: rest2 =>
      let frac := rest2.takeWhile Char.isDigit
      let rest3 := rest2.dropWhile Char.isDigit
      if rest3.isEmpty && !(intPart.isEmpty && frac.isEmpty) then
        some (mkRat (digitsVal intPart * 10 ^ frac.length + digitsVal frac) (10 ^ frac.length))
      else none
  | _ => none

/-- Python's `str.strip()`: drop whitespace from both ends. -/
def pyStrip (cs : List Char) : List Char :=
  ((cs.dropWhile Char.isWhitespace).reverse.dropWhile Char.isWhitespace).reverse

/-- Python's `str.lower()`: lower-case every character. -/
def pyLower (cs : List Char) : List Char := cs.map Char.toLower

/-- Parse a string as a (signed) decimal number, ignoring surrounding
whitespace; `none` when the text is not numeric. -/
def parseNumStr (s : String) : Option ℚ :=
  match pyStrip s.toList with
  | '-' :: rest => (parseDec rest).map (fun q => -q)
  | '+' :: rest => parseDec rest
  | cs => parseDec cs

/-- One cell under `pd.to_numeric(·, errors="coerce")`: numbers and `NaN`
are unchanged, booleans become 1/0, and a string becomes its numeric value
when it parses and `NaN` otherwise. -/
def to_numeric (v : Value) : Value :=
  match v with
  | .num q => .num q
  | .na => .na
  | .bool b => .num (if b then 1 else 0)
  | .str s =>
      match parseNumStr s with
      | some q => .num q
      | none => .na

/-- A cell is numeric-or-missing (never a raw string). -/
def isNumOrNa (v : Value) : Bool :=
  match v with
  | .num _ => true
  | .na => true
  | _ => false

/-! ### String normalization used by the dementia derivation -/

/-- Check that `needle` occurs at the start of `hay` (character list form). -/
def startsWithChars : List Char → List Char → Bool
  | [], _ => true
  | _ :: _, [] => false
  | a :: as, b :: bs => a == b && startsWithChars as bs

/-- Check that `needle` occurs contiguously somewhere in `hay`. -/
def containsChars (hay needle : List Char) : Bool :=
  match hay with
  | [] => needle.isEmpty
  | _ :: tl => startsWithChars needle hay || containsChars tl needle

/-- Python's `needle in hay` on strings: substring containment. -/
def pyIn (needle hay : List Char) : Bool :=
  containsChars hay needle

/-- Python's `str(·)` as applied by `.astype(str)` to a cell: strings are
unchanged, `NaN` prints as `"nan"`, booleans as `"True"`/`"False"`, and a
number as its numeral (the exact numeric rendering never contains a
letter, which is all the derivation below can observe). -/
def py_str (v : Value) : String :=
  match v with
  | .str s => s
  | .na => "nan"
  | .bool b => if b then "True" else "False"
  | .num q => toString q

/-- Dementia flag of one cognitive-status cell, as computed at
`src/utils/prep.py:78`–`84`: `astype(str)`, `.str.strip()`,
`.str.lower()`, then `("dementia" in x) and ("no dementia" not in x)`. -/
def dementia_of (v : Value) : Bool :=
  let x := pyLower (pyStrip (py_str v).toList)
  pyIn "dementia".toList x && !(pyIn "no dementia".toList x)

/-- The flag on a plain cognitive-status string (the spec's
`has_dementia`). -/
def has_dementia (s : String) : Bool := dementia_of (.str s)

/-- Pandas `Series.map({True: "Dementia", False: "No dementia"})` on one cell: a
boolean maps to its label, anything else is absent from the dict and maps
to `NaN` (src/utils/prep.py:86-88). -/
def dementia_status_map (v : Value) : Value :=
  match v with
  | .bool true => .str "Dementia"
  | .bool false => .str "No dementia"
  | _ => .na

/-! ### The data-shaping subroutines of `src/utils/prep.py` -/

/-- The `clean_data` function (src/utils/prep.py:7-13): when a
"Fresh Brain Weight" column exists, replace it by
`pd.to_numeric(df["Fresh Brain Weight"], errors="coerce")`; return the
frame.  (The assignment happens on the caller's object; `clean_dataRef`
below models that aliasing, this definition gives the resulting
contents.) -/
def clean_data (df : DataFrame) : DataFrame :=
  if df.cols.contains "Fresh Brain Weight" then
    setCol df "Fresh Brain Weight" ((getColVals df "Fresh Brain Weight").map to_numeric)
  else df

/-- The `pathology_cols` list of `filtered` (src/utils/prep.py:33-54). -/
def pathology_cols : List String :=
  ["Donor ID",
   "percent AT8 positive area_Grey matter",
   "percent 6e10 positive area_Grey matter",
   "percent pTDP43 positive area_Grey matter",
   "percent aSyn positive area_Grey matter",
   "number of NeuN positive cells per area_Grey matter",
   "percent Iba1 positive area_Grey matter",
   "percent GFAP positive area_Grey matter"]

/-- The `meta_cols` list of `filtered` (src/utils/prep.py:67). -/
def meta_cols : List String :=
  ["Donor ID", "Cognitive Status", "Overall AD neuropathological Change"]

/-- Result of `filtered`: either a missing-columns failure (the function
returns `None` after reporting, via `st.error`/`st.write`, the missing
column names and the columns actually present), or the merged analytic
frame. -/
inductive FilteredResult where
  | missingPathology (missing available : List String)
  | missingMeta (missing available : List String)
  | ok (df : DataFrame)
deriving DecidableEq, Repr

/-- The Python return value carried by a `FilteredResult`: `None` on either
failure branch, the frame otherwise. -/
def FilteredResult.toOption : FilteredResult → Option DataFrame
  | .missingPathology _ _ => none
  | .missingMeta _ _ => none
  | .ok df => some df

/-- The `filtered` function (src/utils/prep.py:15-97).  The metadata frame
read by `pd.read_excel("data/donor_metadata.xlsx")` at line 30 is passed
here as the explicit argument `df_meta0` (the file's contents are an input
of the computation).  Steps, in source order: pathology column check,
pathology projection (`.copy()`), metadata column check, metadata
projection (`.copy()`), derivation of `Dementia` and `Dementia_status`,
inner merge on "Donor ID", numeric coercion of every marker column. -/
def filtered (df_pathology df_meta0 : DataFrame) : FilteredResult :=
  let missing_cols := pathology_cols.filter (fun c => !(df_pathology.cols.contains c))
  if !missing_cols.isEmpty then
    .missingPathology missing_cols df_pathology.cols
  else
    let df_patho := select df_pathology pathology_cols
    let missing_meta := meta_cols.filter (fun c => !(df_meta0.cols.contains c))
    if !missing_meta.isEmpty then
      .missingMeta missing_meta df_meta0.cols
    else
      let df_meta1 := select df_meta0 meta_cols
      let df_meta2 := setCol df_meta1 "Dementia"
        ((getColVals df_meta1 "Cognitive Status").map (fun v => .bool (dementia_of v)))
      let df_meta3 := setCol df_meta2 "Dementia_status"
        ((getColVals df_meta2 "Dementia").map dementia_status_map)
      let df_merged := merge_inner df_patho df_meta3 "Donor ID"
      let df_final := (pathology_cols.drop 1).foldl
        (fun d c => setCol d c ((getColVals d c).map to_numeric)) df_merged
      .ok df_final

/-- Well-formed (rectangular) frame: every row has one cell per column.
Every frame pandas builds is rectangular. -/
def Wf (df : DataFrame) : Prop := ∀ r ∈ df.rows, r.length = df.cols.length

instance (df : DataFrame) : Decidable (Wf df) := by
  unfold Wf; infer_instance

/-- Columns of the analytic table `filtered` returns on success: the
pathology columns followed by the retained metadata columns and the two
derived columns. -/
def analyticCols : List String :=
  pathology_cols ++
    ["Cognitive Status", "Overall AD neuropathological Change", "Dementia", "Dementia_status"]

/-- One row of the analytic table, built from a pathology row `pr` (of a
frame with columns `pcols`) and a matching metadata row `mr` (of a frame
with columns `mcols`): the donor id, the seven coerced marker values, the
two retained metadata cells, and the two derived cells. -/
def analyticRow (pcols : List String) (pr : List Value) (mcols : List String)
    (mr : List Value) : List Value :=
  cellAt pcols pr "Donor ID" ::
    ((pathology_cols.drop 1).map (fun c => to_numeric (cellAt pcols pr c))
      ++ [cellAt mcols mr "Cognitive Status",
          cellAt mcols mr "Overall AD neuropathological Change",
          .bool (dementia_of (cellAt mcols mr "Cognitive Status")),
          dementia_status_map (.bool (dementia_of (cellAt mcols mr "Cognitive Status")))])

/-- Closed form of the frame `filtered` returns when both column checks
pass (`filtered_eq_analytic` below proves the agreement): one row per pair
of a pathology row and a metadata row with the same donor id, in
pathology-major order. -/
def analyticTable (p m : DataFrame) : DataFrame :=
  ⟨analyticCols,
   p.rows.flatMap (fun pr =>
     (m.rows.filter
         (fun mr => cellAt m.cols mr "Donor ID" == cellAt p.cols pr "Donor ID")).map
       (fun mr => analyticRow p.cols pr m.cols mr))⟩

/-- One row of the derived metadata frame (projection of `m` to `meta_cols`
followed by the two derived cells), used to state `meta_chain`. -/
def metaRow (mcols : List String) (r : List Value) : List Value :=
  [cellAt mcols r "Donor ID", cellAt mcols r "Cognitive Status",
   cellAt mcols r "Overall AD neuropathological Change",
   .bool (dementia_of (cellAt mcols r "Cognitive Status")),
   dementia_status_map (.bool (dementia_of (cellAt mcols r "Cognitive Status")))]

/-- One merged row before numeric coercion, used to state `merge_shape`. -/
def preRow (pcols : List String) (pr : List Value) (mcols : List String)
    (mr : List Value) : List Value :=
  pathology_cols.map (cellAt pcols pr)
    ++ [cellAt mcols mr "Cognitive Status",
        cellAt mcols mr "Overall AD neuropathological Change",
        .bool (dementia_of (cellAt mcols mr "Cognitive Status")),
        dementia_status_map (.bool (dementia_of (cellAt mcols mr "Cognitive Status")))]

/-- Coerce the cell at index `k` of a row to numeric. -/
def setNum (k : Nat) (r : List Value) : List Value :=
  r.set k (to_numeric (r.getD k .na))

/-- Row transformation performed by the final coercion loop of `filtered`:
coerce the cells of the seven marker columns (indices 1 through 7 of the
analytic table). -/
def coerceRow (r : List Value) : List Value :=
  setNum 7 (setNum 6 (setNum 5 (setNum 4 (setNum 3 (setNum 2 (setNum 1 r))))))

/-- Metadata table of the end-to-end scenario (spec §8, property 6). -/
def scenarioMeta : DataFrame :=
  ⟨["Donor ID", "Cognitive Status", "Overall AD neuropathological Change"],
   [[.str "D1", .str "Dementia", .str "High"],
    [.str "D2", .str "No dementia", .str "Low"]]⟩

/-- Pathology table of the end-to-end scenario: AT8 = 12.5 / 3.1 / 9.0 for
donors D1, D2, D3, with every required marker column present (the
remaining markers hold 1.0). -/
def scenarioPathology : DataFrame :=
  ⟨pathology_cols,
   [[.str "D1", .num (mkRat 125 10), .num 1, .num 1, .num 1, .num 1, .num 1, .num 1],
    [.str "D2", .num (mkRat 31 10), .num 1, .num 1, .num 1, .num 1, .num 1, .num 1],
    [.str "D3", .num 9, .num 1, .num 1, .num 1, .num 1, .num 1, .num 1]]⟩

/-- Expected analytic table of the end-to-end scenario. -/
def scenarioExpected : DataFrame :=
  ⟨analyticCols,
   [[.str "D1", .num (mkRat 125 10), .num 1, .num 1, .num 1, .num 1, .num 1, .num 1,
     .str "Dementia", .str "High", .bool true, .str "Dementia"],
    [.str "D2", .num (mkRat 31 10), .num 1, .num 1, .num 1, .num 1, .num 1, .num 1,
     .str "No dementia", .str "Low", .bool false, .str "No dementia"]]⟩

/-- One-column donor frame whose weight cell holds the "Unavailable"
sentinel; exhibits the in-place write performed by `clean_data`. -/
def weightDf : DataFrame :=
  ⟨["Fresh Brain Weight"], [[.str "Unavailable"]]⟩

/-- Two-column donor frame with an "Unavailable" weight cell and a
numeric one. -/
def weightDf2 : DataFrame :=
  ⟨["Donor ID", "Fresh Brain Weight"],
   [[.str "D1", .str "Unavailable"], [.str "D2", .num 1200]]⟩

/-! ### Reference-level (aliasing) model

Python frames are heap objects passed by reference.  A heap is a list of
frames; a reference is an index.  `df[col] = ...` writes through the
reference it is executed on. -/

/-- Heap of DataFrame objects; a reference is an index into it. -/
abbrev Heap := List DataFrame

/-- Contents of the frame a reference designates. -/
def readRef (h : Heap) (r : Nat) : DataFrame := List.getD h r emptyDF

/-- Overwrite the frame a reference designates. -/
def writeRef (h : Heap) (r : Nat) (df : DataFrame) : Heap := List.set h r df

/-- Length of the heap (next fresh address). -/
def heapLen (h : Heap) : Nat := List.length h

/-- Reference-level `clean_data`: the assignment
`df["Fresh Brain Weight"] = pd.to_numeric(...)` (src/utils/prep.py:12)
executes directly on the caller's object — there is no copy — and the same
reference is returned.  When the column is absent nothing is written. -/
def clean_dataRef (h : Heap) (r : Nat) : Heap × Nat :=
  if (readRef h r).cols.contains "Fresh Brain Weight" then
    (writeRef h r (clean_data (readRef h r)), r)
  else (h, r)

/-- Reference-level `filtered`.  Every column assignment inside
`filtered` targets a frame created within the call: `df_patho` is
`df_pathology[pathology_cols].copy()` (line 64) and `df_meta` is rebound to
`df_meta[meta_cols].copy()` (line 75) before the assignments at lines
78-88, and the final loop writes `df_merged`, the fresh result of `.merge`
(line 90).  Hence no write reaches the heap through `rp` or `rm`; on
success the result frame is a freshly allocated object. -/
def filteredRef (h : Heap) (rp rm : Nat) : Heap × Option Nat :=
  match filtered (readRef h rp) (readRef h rm) with
  | .ok df => (h ++ [df], some (heapLen h))
  | _ => (h, none)

/-! ### The loaders of `src/utils/io.py` -/

/-- Outcome of the underlying file read (`pd.read_excel` / `pd.read_csv`):
either the parsed frame or the exception's message.  The read is external
I/O, so it is an input of the embedded loader. -/
abbrev ReadOutcome := Except String DataFrame

/-- The `load_data` function (src/utils/io.py:14-34): on a successful read,
return `clean_data(df)` with no message; on any read failure, show
"Failed to load data: ..." and return `pd.DataFrame()`.  The second
component is the message passed to `st.error`, if any. -/
def load_data (res : ReadOutcome) : DataFrame × Option String :=
  match res with
  | .ok df => (clean_data df, none)
  | .error e => (emptyDF, some ("Failed to load data: " ++ e))

/-- The `load_csv` function (src/utils/io.py:36-56): on a successful read,
return the frame unchanged with no message; on any read failure, show
"Failed to load data: ..." and return `pd.DataFrame()`. -/
def load_csv (res : ReadOutcome) : DataFrame × Option String :=
  match res with
  | .ok df => (df, none)
  | .error e => (emptyDF, some ("Failed to load data: " ++ e))

/-! ### General lemmas about the embedded frame operations -/

theorem zip_map_self {α β : Type} (g : α → β) (l : List α) :
    l.zip (l.map g) = l.map (fun a => (a, g a)) := by
  induction l with
  | nil => rfl
  | cons x xs ih => simp [ih]

theorem setCol_append_gen {α : Type} (cols : List String) (base : List α)
    (f : α → List Value) (g : α → Value) (c : String) (h : c ∉ cols) :
    setCol ⟨cols, base.map f⟩ c (base.map g)
      = ⟨cols ++ [c], base.map (fun a => f a ++ [g a])⟩ := by
  unfold setCol
  rw [if_neg (by simpa using h), List.zip_map', List.map_map]
  rfl

theorem setCol_replace_gen {α : Type} (cols : List String) (base : List α)
    (f : α → List Value) (g : α → Value) (c : String) (h : c ∈ cols) :
    setCol ⟨cols, base.map f⟩ c (base.map g)
      = ⟨cols, base.map (fun a => (f a).set (cols.indexOf c) (g a))⟩ := by
  unfold setCol
  rw [if_pos (by simpa using h), List.zip_map', List.map_map]
  rfl

theorem setCol_replace_rows (cols : List String) (rows : List (List Value)) (c : String)
    (g : List Value → Value) (h : c ∈ cols) :
    setCol ⟨cols, rows⟩ c (rows.map g)
      = ⟨cols, rows.map (fun r => r.set (cols.indexOf c) (g r))⟩ := by
  unfold setCol
  rw [if_pos (by simpa using h), zip_map_self, List.map_map]
  rfl

/-- The metadata side of `filtered` (projection and the two derived-column
assignments), in closed form. -/
theorem meta_chain (m : DataFrame) :
    setCol
      (setCol (select m meta_cols) "Dementia"
        ((getColVals (select m meta_cols) "Cognitive Status").map
          (fun v => Value.bool (dementia_of v))))
      "Dementia_status"
      ((getColVals
          (setCol (select m meta_cols) "Dementia"
            ((getColVals (select m meta_cols) "Cognitive Status").map
              (fun v => Value.bool (dementia_of v))))
          "Dementia").map dementia_status_map)
      = ⟨["Donor ID", "Cognitive Status", "Overall AD neuropathological Change",
          "Dementia", "Dementia_status"],
         m.rows.map (fun r => metaRow m.cols r)⟩ := by
  unfold select getColVals
  dsimp only
  simp only [List.map_map]
  rw [setCol_append_gen _ _ _ _ _ (by decide)]
  dsimp only
  simp only [List.map_map]
  rw [setCol_append_gen _ _ _ _ _ (by decide)]
  rfl

/-- The numeric-coercion loop of `filtered`, in closed form. -/
theorem fold_coerce (R : List (List Value)) :
    (pathology_cols.drop 1).foldl
      (fun d c => setCol d c ((getColVals d c).map to_numeric)) ⟨analyticCols, R⟩
      = ⟨analyticCols, R.map coerceRow⟩ := by
  rw [show pathology_cols.drop 1 =
      ["percent AT8 positive area_Grey matter",
       "percent 6e10 positive area_Grey matter",
       "percent pTDP43 positive area_Grey matter",
       "percent aSyn positive area_Grey matter",
       "number of NeuN positive cells per area_Grey matter",
       "percent Iba1 positive area_Grey matter",
       "percent GFAP positive area_Grey matter"] from rfl]
  simp only [List.foldl_cons, List.foldl_nil]
  unfold getColVals
  try dsimp only
  try simp only [List.map_map]
  rw [setCol_replace_rows]
  try dsimp only
  try simp only [List.map_map]
  rw [setCol_replace_rows]
  try dsimp only
  try simp only [List.map_map]
  rw [setCol_replace_rows]
  try dsimp only
  try simp only [List.map_map]
  rw [setCol_replace_rows]
  try dsimp only
  try simp only [List.map_map]
  rw [setCol_replace_rows]
  try dsimp only
  try simp only [List.map_map]
  rw [setCol_replace_rows]
  try dsimp only
  try simp only [List.map_map]
  rw [setCol_replace_rows]
  · try dsimp only
    try simp only [List.map_map]
    rfl
  all_goals (change _ ∈ analyticCols; decide)

/-- The merge step of `filtered`, in closed form. -/
theorem merge_shape (p m : DataFrame) :
    merge_inner (select p pathology_cols)
      ⟨["Donor ID", "Cognitive Status", "Overall AD neuropathological Change",
        "Dementia", "Dementia_status"],
       m.rows.map (fun r => metaRow m.cols r)⟩ "Donor ID"
      = ⟨analyticCols,
         p.rows.flatMap (fun pr =>
           (m.rows.filter
               (fun mr => cellAt m.cols mr "Donor ID" == cellAt p.cols pr "Donor ID")).map
             (fun mr => preRow p.cols pr m.cols mr))⟩ := by
  unfold merge_inner select
  dsimp only
  rw [show List.filter (fun c => !(c == "Donor ID"))
        ["Donor ID", "Cognitive Status", "Overall AD neuropathological Change",
         "Dementia", "Dementia_status"]
      = ["Cognitive Status", "Overall AD neuropathological Change",
         "Dementia", "Dementia_status"] from rfl]
  rw [List.flatMap_map]
  simp only [List.filter_map, List.map_map]
  rfl

/-- Master characterization: whenever both column-presence checks pass,
`filtered` succeeds and returns exactly the closed-form analytic table. -/
theorem filtered_eq_analytic (p m : DataFrame)
    (hpc : ∀ c ∈ pathology_cols, c ∈ p.cols)
    (hmc : ∀ c ∈ meta_cols, c ∈ m.cols) :
    filtered p m = .ok (analyticTable p m) := by
  have h1 : pathology_cols.filter (fun c => !(p.cols.contains c)) = [] := by
    rw [List.filter_eq_nil_iff]; intro a ha; simpa using hpc a ha
  have h2 : meta_cols.filter (fun c => !(m.cols.contains c)) = [] := by
    rw [List.filter_eq_nil_iff]; intro a ha; simpa using hmc a ha
  unfold filtered
  rw [h1, h2]
  simp only [List.isEmpty_nil, Bool.not_true, Bool.false_eq_true, if_false]
  rw [meta_chain m, merge_shape p m, fold_coerce]
  unfold analyticTable
  congr 1
  rw [List.map_flatMap]
  simp only [List.map_map]
  rfl

theorem filtered_ok_checks (p m df : DataFrame) (hok : filtered p m = .ok df) :
    (∀ c ∈ pathology_cols, c ∈ p.cols) ∧ (∀ c ∈ meta_cols, c ∈ m.cols) := by
  unfold filtered at hok
  dsimp only at hok
  split at hok
  · exact absurd hok (by simp)
  · split at hok
    · exact absurd hok (by simp)
    · rename_i h1 h2
      simp only [Bool.not_eq_true', Bool.not_eq_false, Bool.not_eq_true, List.isEmpty_iff,
        List.filter_eq_nil_iff] at h1 h2
      exact ⟨fun c hc => by simpa using h1 c hc, fun c hc => by simpa using h2 c hc⟩

theorem filtered_ok_elim (p m df : DataFrame) (hok : filtered p m = .ok df) :
    df = analyticTable p m := by
  obtain ⟨hpc, hmc⟩ := filtered_ok_checks p m df hok
  have h := filtered_eq_analytic p m hpc hmc
  rw [h] at hok
  exact (FilteredResult.ok.inj hok).symm

theorem cellAt_analyticRow_id (pcols : List String) (pr : List Value)
    (mcols : List String) (mr : List Value) :
    cellAt analyticCols (analyticRow pcols pr mcols mr) "Donor ID"
      = cellAt pcols pr "Donor ID" := rfl

theorem cellAt_analyticRow_marker (c : String) (hc : c ∈ pathology_cols.drop 1)
    (pcols : List String) (pr : List Value) (mcols : List String) (mr : List Value) :
    cellAt analyticCols (analyticRow pcols pr mcols mr) c
      = to_numeric (cellAt pcols pr c) := by
  fin_cases hc <;> rfl

theorem cellAt_analyticRow_dementia (pcols : List String) (pr : List Value)
    (mcols : List String) (mr : List Value) :
    cellAt analyticCols (analyticRow pcols pr mcols mr) "Dementia"
      = .bool (dementia_of (cellAt mcols mr "Cognitive Status")) := rfl

theorem cellAt_analyticRow_status (pcols : List String) (pr : List Value)
    (mcols : List String) (mr : List Value) :
    cellAt analyticCols (analyticRow pcols pr mcols mr) "Dementia_status"
      = dementia_status_map (.bool (dementia_of (cellAt mcols mr "Cognitive Status"))) := rfl

theorem mem_analyticTable_rows (p m : DataFrame) (row : List Value) :
    row ∈ (analyticTable p m).rows ↔
      ∃ pr ∈ p.rows, ∃ mr ∈ m.rows,
        cellAt m.cols mr "Donor ID" = cellAt p.cols pr "Donor ID"
        ∧ row = analyticRow p.cols pr m.cols mr := by
  unfold analyticTable
  simp only [List.mem_flatMap, List.mem_map, List.mem_filter, beq_iff_eq]
  constructor
  · rintro ⟨pr, hpr, mr, ⟨hmr, hkey⟩, hrow⟩
    exact ⟨pr, hpr, mr, hmr, hkey, hrow.symm⟩
  · rintro ⟨pr, hpr, mr, hmr, hkey, hrow⟩
    exact ⟨pr, hpr, mr, ⟨hmr, hkey⟩, hrow.symm⟩

theorem filter_key_length {β : Type} (M : List β) (kM : β → Value) (k : Value)
    (hnm : (M.map kM).Nodup) :
    (M.filter (fun mr => kM mr == k)).length = if k ∈ M.map kM then 1 else 0 := by
  have h1 : (M.filter (fun mr => kM mr == k)).length = List.count k (M.map kM) := by
    rw [← List.countP_eq_length_filter, List.count, List.countP_map]
    rfl
  rw [h1]
  by_cases hk : k ∈ M.map kM
  · rw [if_pos hk, List.count_eq_one_of_mem hnm hk]
  · rw [if_neg hk, List.count_eq_zero_of_not_mem hk]

theorem flatMap_match_length {α β : Type} (P : List α) (M : List β)
    (kP : α → Value) (kM : β → Value) (f : α → β → List Value)
    (hnm : (M.map kM).Nodup) :
    (P.flatMap (fun pr => (M.filter (fun mr => kM mr == kP pr)).map (f pr))).length
      = ((P.map kP).filter (fun v => (M.map kM).contains v)).length := by
  induction P with
  | nil => rfl
  | cons pr P ih =>
      simp only [List.flatMap_cons, List.length_append, List.length_map, List.map_cons,
        List.filter_cons]
      rw [filter_key_length M kM (kP pr) hnm, ih]
      by_cases hk : kP pr ∈ M.map kM
      · simp [hk, Nat.add_comm]
      · simp [hk, Nat.add_comm]

theorem inter_card_eq (pIds mIds : List Value) (hnp : pIds.Nodup) :
    (pIds.toFinset ∩ mIds.toFinset).card
      = (pIds.filter (fun v => mIds.contains v)).length := by
  rw [← List.toFinset_inter, List.toFinset_card_of_nodup]
  · rw [List.inter_def]
  · rw [List.inter_def]
    exact hnp.filter _

theorem analyticTable_length (p m : DataFrame)
    (hnp : (getColVals p "Donor ID").Nodup) (hnm : (getColVals m "Donor ID").Nodup) :
    (analyticTable p m).rows.length
      = ((getColVals p "Donor ID").toFinset ∩ (getColVals m "Donor ID").toFinset).card := by
  rw [inter_card_eq _ _ hnp]
  unfold analyticTable getColVals
  dsimp only
  exact flatMap_match_length p.rows m.rows
    (fun pr => cellAt p.cols pr "Donor ID") (fun mr => cellAt m.cols mr "Donor ID")
    (fun pr mr => analyticRow p.cols pr m.cols mr) hnm

/-! ### Claim theorems -/

/-- C1: the dementia flag computed by `filtered` equals, for every
cognitive-status string, "the trimmed, case-folded text contains
`dementia` and does not contain `no dementia`"; the five example
evaluations of the spec hold; and the display label is "Dementia" for a
true flag and "No dementia" for a false one. -/
theorem dementia_flag_correct :
    (∀ s : String, has_dementia s =
        (pyIn "dementia".toList (pyLower (pyStrip s.toList))
          && !(pyIn "no dementia".toList (pyLower (pyStrip s.toList)))))
    ∧ has_dementia "Mild Dementia" = true
    ∧ has_dementia "No dementia" = false
    ∧ has_dementia "Dementia" = true
    ∧ has_dementia "Cognitively normal" = false
    ∧ has_dementia "  DEMENTIA  " = true
    ∧ dementia_status_map (.bool true) = .str "Dementia"
    ∧ dementia_status_map (.bool false) = .str "No dementia" :=
  ⟨fun _ => rfl, by decide, by decide, by decide, by decide, by decide, rfl, rfl⟩

/-- C6: on the spec's end-to-end scenario, `filtered` returns exactly the
two-row analytic table for D1 and D2 (D3 is dropped for lack of a metadata
match), with status labels "Dementia" for D1 and "No dementia" for D2. -/
theorem end_to_end_scenario :
    filtered scenarioPathology scenarioMeta = .ok scenarioExpected
    ∧ scenarioExpected.rows.length = 2
    ∧ getColVals scenarioExpected "Donor ID" = [.str "D1", .str "D2"]
    ∧ Value.str "D3" ∉ getColVals scenarioExpected "Donor ID"
    ∧ getColVals scenarioExpected "Dementia_status"
        = [.str "Dementia", .str "No dementia"] := by
  refine ⟨by decide, by decide, by decide, by decide, by decide⟩

/-- C3: when a required pathology (resp. metadata) column is absent,
`filtered` reports a missing-columns failure carrying exactly the absent
required columns and the columns actually present, and returns `None`
rather than any frame; when no required column is missing on either side,
the failure branch is not taken. -/
theorem missing_columns_detection (p m : DataFrame) :
    ((∃ c ∈ pathology_cols, c ∉ p.cols) →
        filtered p m = .missingPathology
            (pathology_cols.filter (fun c => !(p.cols.contains c))) p.cols
        ∧ (∀ c, c ∈ pathology_cols.filter (fun c => !(p.cols.contains c))
              ↔ (c ∈ pathology_cols ∧ c ∉ p.cols))
        ∧ (filtered p m).toOption = none)
    ∧ ((∀ c ∈ pathology_cols, c ∈ p.cols) → (∃ c ∈ meta_cols, c ∉ m.cols) →
        filtered p m = .missingMeta
            (meta_cols.filter (fun c => !(m.cols.contains c))) m.cols
        ∧ (∀ c, c ∈ meta_cols.filter (fun c => !(m.cols.contains c))
              ↔ (c ∈ meta_cols ∧ c ∉ m.cols))
        ∧ (filtered p m).toOption = none)
    ∧ ((∀ c ∈ pathology_cols, c ∈ p.cols) → (∀ c ∈ meta_cols, c ∈ m.cols) →
        ∃ df, filtered p m = .ok df) := by
  refine ⟨?_, ?_, ?_⟩
  · rintro ⟨c, hc, hcp⟩
    have hguard : (!(pathology_cols.filter (fun c => !(p.cols.contains c))).isEmpty) = true := by
      have hne : (pathology_cols.filter (fun c => !(p.cols.contains c))) ≠ [] := by
        intro hnil
        rw [List.filter_eq_nil_iff] at hnil
        exact hnil c hc (by simpa using hcp)
      simpa using hne
    have heq : filtered p m = .missingPathology
        (pathology_cols.filter (fun c => !(p.cols.contains c))) p.cols := by
      unfold filtered
      dsimp only
      rw [if_pos hguard]
    refine ⟨heq, ?_, by rw [heq]; rfl⟩
    intro c'
    simp [List.mem_filter]
  · intro hpc
    rintro ⟨c, hc, hcm⟩
    have h1 : pathology_cols.filter (fun c => !(p.cols.contains c)) = [] := by
      rw [List.filter_eq_nil_iff]; intro a ha; simpa using hpc a ha
    have hguard : (!(meta_cols.filter (fun c => !(m.cols.contains c))).isEmpty) = true := by
      have hne : (meta_cols.filter (fun c => !(m.cols.contains c))) ≠ [] := by
        intro hnil
        rw [List.filter_eq_nil_iff] at hnil
        exact hnil c hc (by simpa using hcm)
      simpa using hne
    have heq : filtered p m = .missingMeta
        (meta_cols.filter (fun c => !(m.cols.contains c))) m.cols := by
      unfold filtered
      dsimp only
      rw [h1]
      simp only [List.isEmpty_nil, Bool.not_true, Bool.false_eq_true, if_false]
      rw [if_pos hguard]
    refine ⟨heq, ?_, by rw [heq]; rfl⟩
    intro c'
    simp [List.mem_filter]
  · intro hpc hmc
    exact ⟨analyticTable p m, filtered_eq_analytic p m hpc hmc⟩

/-- Witness for C3 at concrete inputs: a pathology table with only the
identifier column, a metadata table with only the identifier column, and
the passing scenario tables. -/
theorem missing_columns_detection_witness :
    (filtered ⟨["Donor ID"], []⟩ scenarioMeta).toOption = none
    ∧ (filtered scenarioPathology ⟨["Donor ID"], []⟩).toOption = none
    ∧ (filtered scenarioPathology scenarioMeta).toOption ≠ none := by
  refine ⟨((missing_columns_detection _ _).1
      ⟨"percent AT8 positive area_Grey matter", by decide, by decide⟩).2.2,
    ((missing_columns_detection _ _).2.1 (by decide)
      ⟨"Cognitive Status", by decide, by decide⟩).2.2, ?_⟩
  obtain ⟨df, hdf⟩ :=
    (missing_columns_detection scenarioPathology scenarioMeta).2.2 (by decide) (by decide)
  rw [hdf]
  exact Option.some_ne_none df

theorem isNumOrNa_to_numeric (v : Value) : isNumOrNa (to_numeric v) = true := by
  cases v with
  | num q => rfl
  | na => rfl
  | bool b => rfl
  | str s =>
      cases h : parseNumStr s <;> simp [to_numeric, h, isNumOrNa]

/-- C2: when both column checks pass and donor ids are unique within each
input, `filtered` succeeds; the analytic table has exactly one row per
identifier in the intersection of the two id sets, and every output row's
identifier occurs in both inputs (donors present in only one input are
silently dropped: the result is still a success, just with fewer rows). -/
theorem inner_join_correct (p m : DataFrame)
    (hpc : ∀ c ∈ pathology_cols, c ∈ p.cols)
    (hmc : ∀ c ∈ meta_cols, c ∈ m.cols)
    (hnp : (getColVals p "Donor ID").Nodup)
    (hnm : (getColVals m "Donor ID").Nodup) :
    ∃ df, filtered p m = .ok df
      ∧ df.rows.length
          = ((getColVals p "Donor ID").toFinset ∩ (getColVals m "Donor ID").toFinset).card
      ∧ (∀ row ∈ df.rows,
          cellAt df.cols row "Donor ID" ∈ getColVals p "Donor ID"
          ∧ cellAt df.cols row "Donor ID" ∈ getColVals m "Donor ID") := by
  refine ⟨analyticTable p m, filtered_eq_analytic p m hpc hmc,
    analyticTable_length p m hnp hnm, ?_⟩
  intro row hrow
  rw [mem_analyticTable_rows] at hrow
  obtain ⟨pr, hpr, mr, hmr, hkey, rfl⟩ := hrow
  rw [show (analyticTable p m).cols = analyticCols from rfl, cellAt_analyticRow_id]
  constructor
  · exact List.mem_map.mpr ⟨pr, hpr, rfl⟩
  · rw [← hkey]
    exact List.mem_map.mpr ⟨mr, hmr, rfl⟩

/-- Witness for C2 at the scenario tables (intersection {D1, D2}). -/
theorem inner_join_correct_witness :
    scenarioExpected.rows.length
      = ((getColVals scenarioPathology "Donor ID").toFinset
          ∩ (getColVals scenarioMeta "Donor ID").toFinset).card := by
  obtain ⟨df, hok, hlen, hmem⟩ := inner_join_correct scenarioPathology scenarioMeta
    (by decide) (by decide) (by decide) (by decide)
  have hdf : df = scenarioExpected := by
    rw [show filtered scenarioPathology scenarioMeta = .ok scenarioExpected from by decide]
      at hok
    exact (FilteredResult.ok.inj hok).symm
  rw [← hdf]
  exact hlen

/-- C4: whenever `filtered` returns a table, every marker column (each
required pathology column except the identifier) holds only numeric or
missing cells — never a raw string; malformed cells were coerced to
missing rather than aborting (the function returned a table, not a
failure). -/
theorem marker_columns_numeric (p m df : DataFrame) (hok : filtered p m = .ok df) :
    ∀ c ∈ pathology_cols.drop 1, ∀ v ∈ getColVals df c, isNumOrNa v = true := by
  have hdf := filtered_ok_elim p m df hok
  subst hdf
  intro c hc v hv
  unfold getColVals at hv
  rw [List.mem_map] at hv
  obtain ⟨row, hrow, rfl⟩ := hv
  rw [mem_analyticTable_rows] at hrow
  obtain ⟨pr, hpr, mr, hmr, hkey, rfl⟩ := hrow
  rw [show (analyticTable p m).cols = analyticCols from rfl,
    cellAt_analyticRow_marker c hc]
  exact isNumOrNa_to_numeric _

/-- Witness for C4 at the scenario tables and the AT8 marker column. -/
theorem marker_columns_numeric_witness :
    isNumOrNa (Value.num (mkRat 125 10)) = true :=
  marker_columns_numeric scenarioPathology scenarioMeta scenarioExpected (by decide)
    "percent AT8 positive area_Grey matter" (by decide)
    (Value.num (mkRat 125 10)) (by decide)

/-- C10: a missing cognitive status stringifies to "nan", yielding flag
`false` and label "No dementia"; and in every returned analytic table the
`Dementia` cell is always a boolean, the `Dementia_status` cell always a
string (neither is ever missing), with the label "Dementia" exactly when
the flag is true. -/
theorem derived_status_total (p m df : DataFrame) (hok : filtered p m = .ok df) :
    py_str .na = "nan"
    ∧ dementia_of .na = false
    ∧ dementia_status_map (.bool (dementia_of .na)) = .str "No dementia"
    ∧ ∀ row ∈ df.rows,
        (∃ b, cellAt df.cols row "Dementia" = .bool b)
        ∧ (∃ s, cellAt df.cols row "Dementia_status" = .str s)
        ∧ (cellAt df.cols row "Dementia_status" = .str "Dementia"
            ↔ cellAt df.cols row "Dementia" = .bool true) := by
  refine ⟨rfl, by decide, by decide, ?_⟩
  have hdf := filtered_ok_elim p m df hok
  subst hdf
  intro row hrow
  rw [mem_analyticTable_rows] at hrow
  obtain ⟨pr, hpr, mr, hmr, hkey, rfl⟩ := hrow
  rw [show (analyticTable p m).cols = analyticCols from rfl,
    cellAt_analyticRow_dementia, cellAt_analyticRow_status]
  cases dementia_of (cellAt m.cols mr "Cognitive Status")
  · exact ⟨⟨false, rfl⟩, ⟨"No dementia", rfl⟩, by simp [dementia_status_map]⟩
  · exact ⟨⟨true, rfl⟩, ⟨"Dementia", rfl⟩, by simp [dementia_status_map]⟩

/-- Witness for C10 at the first row of the scenario's analytic table. -/
theorem derived_status_total_witness :
    cellAt scenarioExpected.cols (scenarioExpected.rows.getD 0 []) "Dementia_status"
        = .str "Dementia"
      ↔ cellAt scenarioExpected.cols (scenarioExpected.rows.getD 0 []) "Dementia"
        = .bool true :=
  ((derived_status_total scenarioPathology scenarioMeta scenarioExpected
      (by decide)).2.2.2 (scenarioExpected.rows.getD 0 []) (by decide)).2.2

theorem readRef_append (h : Heap) (df : DataFrame) (r : Nat) (hr : r < heapLen h) :
    readRef (h ++ [df]) r = readRef h r := by
  unfold readRef
  rw [List.getD_eq_getElem?_getD, List.getD_eq_getElem?_getD, List.getElem?_append,
    if_pos (show r < List.length h from hr)]

theorem readRef_concat_len (h : Heap) (df : DataFrame) :
    readRef (h ++ [df]) (heapLen h) = df := by
  unfold readRef heapLen
  rw [List.getD_eq_getElem?_getD, List.getElem?_concat_length]
  rfl

theorem filteredRef_eq (hh : Heap) (rp rm : Nat) :
    filteredRef hh rp rm
      = match filtered (readRef hh rp) (readRef hh rm) with
        | .ok df => (hh ++ [df], some (heapLen hh))
        | _ => (hh, none) := rfl

theorem filteredRef_reads (h : Heap) (rp rm r : Nat) (hr : r < heapLen h) :
    readRef (filteredRef h rp rm).1 r = readRef h r := by
  rw [filteredRef_eq]
  cases hfe : filtered (readRef h rp) (readRef h rm) with
  | ok df => exact readRef_append h df r hr
  | missingPathology a b => rfl
  | missingMeta a b => rfl

/-- C5: `filtered` has no hidden mutable state: its result is a function
of the two tables alone.  A first call writes nothing through the caller's
references, so a second call on the same references computes the same
`filtered` value, and the frames the two calls return are row-for-row
identical. -/
theorem filtered_pure (h : Heap) (rp rm : Nat)
    (hp : rp < heapLen h) (hm : rm < heapLen h) :
    filtered (readRef (filteredRef h rp rm).1 rp) (readRef (filteredRef h rp rm).1 rm)
      = filtered (readRef h rp) (readRef h rm)
    ∧ (filteredRef h rp rm).2.map (readRef (filteredRef (filteredRef h rp rm).1 rp rm).1)
        = (filteredRef (filteredRef h rp rm).1 rp rm).2.map
            (readRef (filteredRef (filteredRef h rp rm).1 rp rm).1) := by
  have hrp := filteredRef_reads h rp rm rp hp
  have hrm := filteredRef_reads h rp rm rm hm
  have hsame : filtered (readRef (filteredRef h rp rm).1 rp)
      (readRef (filteredRef h rp rm).1 rm) = filtered (readRef h rp) (readRef h rm) := by
    rw [hrp, hrm]
  refine ⟨hsame, ?_⟩
  cases hfe : filtered (readRef h rp) (readRef h rm) with
  | ok df =>
      have c2 : filteredRef (filteredRef h rp rm).1 rp rm
          = ((filteredRef h rp rm).1 ++ [df], some (heapLen (filteredRef h rp rm).1)) := by
        rw [filteredRef_eq (filteredRef h rp rm).1, hsame, hfe]
      have c1 : filteredRef h rp rm = (h ++ [df], some (heapLen h)) := by
        rw [filteredRef_eq, hfe]
      rw [c2, c1]
      show some (readRef (h ++ [df] ++ [df]) (heapLen h))
          = some (readRef (h ++ [df] ++ [df]) (heapLen (h ++ [df])))
      rw [readRef_concat_len (h ++ [df]) df,
        readRef_append (h ++ [df]) df (heapLen h) (by unfold heapLen; simp),
        readRef_concat_len h df]
  | missingPathology a b =>
      have c2 : filteredRef (filteredRef h rp rm).1 rp rm
          = ((filteredRef h rp rm).1, none) := by
        rw [filteredRef_eq (filteredRef h rp rm).1, hsame, hfe]
      have c1 : filteredRef h rp rm = (h, none) := by
        rw [filteredRef_eq, hfe]
      rw [c2, c1]
  | missingMeta a b =>
      have c2 : filteredRef (filteredRef h rp rm).1 rp rm
          = ((filteredRef h rp rm).1, none) := by
        rw [filteredRef_eq (filteredRef h rp rm).1, hsame, hfe]
      have c1 : filteredRef h rp rm = (h, none) := by
        rw [filteredRef_eq, hfe]
      rw [c2, c1]

/-- Witness for C5 at a concrete two-frame heap. -/
theorem filtered_pure_witness :
    filtered (readRef (filteredRef [scenarioPathology, scenarioMeta] 0 1).1 0)
        (readRef (filteredRef [scenarioPathology, scenarioMeta] 0 1).1 1)
      = filtered (readRef [scenarioPathology, scenarioMeta] 0)
          (readRef [scenarioPathology, scenarioMeta] 1)
    ∧ (filteredRef [scenarioPathology, scenarioMeta] 0 1).2.map
          (readRef (filteredRef (filteredRef [scenarioPathology, scenarioMeta] 0 1).1 0 1).1)
        = (filteredRef (filteredRef [scenarioPathology, scenarioMeta] 0 1).1 0 1).2.map
            (readRef (filteredRef (filteredRef [scenarioPathology, scenarioMeta] 0 1).1 0 1).1) :=
  filtered_pure [scenarioPathology, scenarioMeta] 0 1 (by decide) (by decide)

theorem getD_set_eq_of_lt (r : List Value) (i : Nat) (x : Value) (hi : i < r.length) :
    (r.set i x).getD i .na = x := by
  rw [List.getD_eq_getElem?_getD, List.getElem?_set_self hi]
  rfl

theorem getD_set_ne_idx (r : List Value) (i j : Nat) (x : Value) (hne : i ≠ j) :
    (r.set i x).getD j .na = r.getD j .na := by
  rw [List.getD_eq_getElem?_getD, List.getElem?_set_ne hne, ← List.getD_eq_getElem?_getD]

theorem indexOf_ne_of_mem (cols : List String) (c c' : String)
    (hc : c ∈ cols) (hc' : c' ∈ cols) (hne : c ≠ c') :
    cols.indexOf c ≠ cols.indexOf c' := by
  intro he
  exact hne ((List.indexOf_inj hc hc').mp he)

/-- Behaviour of `clean_data` on the frame contents: identity when the
weight column is absent; otherwise only the weight column changes, and it
becomes its numeric coercion. -/
theorem clean_data_spec (df : DataFrame) (hw : Wf df) :
    ("Fresh Brain Weight" ∉ df.cols → clean_data df = df)
    ∧ ("Fresh Brain Weight" ∈ df.cols →
        (clean_data df).cols = df.cols
        ∧ getColVals (clean_data df) "Fresh Brain Weight"
            = (getColVals df "Fresh Brain Weight").map to_numeric
        ∧ (∀ c ∈ df.cols, c ≠ "Fresh Brain Weight" →
            getColVals (clean_data df) c = getColVals df c)) := by
  constructor
  · intro hmem
    unfold clean_data
    rw [if_neg (by simpa using hmem)]
  · intro hmem
    have hv : (getColVals df "Fresh Brain Weight").map to_numeric
        = df.rows.map (fun r => to_numeric (cellAt df.cols r "Fresh Brain Weight")) := by
      unfold getColVals
      rw [List.map_map]
      rfl
    have hcd : clean_data df
        = ⟨df.cols, df.rows.map (fun r =>
            r.set (df.cols.indexOf "Fresh Brain Weight")
              (to_numeric (cellAt df.cols r "Fresh Brain Weight")))⟩ := by
      unfold clean_data
      rw [if_pos (by simpa using hmem), hv]
      exact setCol_replace_rows df.cols df.rows _ _ hmem
    refine ⟨by rw [hcd], ?_, ?_⟩
    · rw [hcd, hv]
      unfold getColVals
      dsimp only
      rw [List.map_map]
      apply List.map_congr_left
      intro r hr
      have hlen : r.length = df.cols.length := hw r hr
      have hidx : df.cols.indexOf "Fresh Brain Weight" < r.length := by
        rw [hlen]
        exact List.indexOf_lt_length.mpr hmem
      exact getD_set_eq_of_lt r _ _ hidx
    · intro c hc hne
      rw [hcd]
      unfold getColVals
      dsimp only
      rw [List.map_map]
      apply List.map_congr_left
      intro r hr
      exact getD_set_ne_idx r _ _ _
        (indexOf_ne_of_mem df.cols "Fresh Brain Weight" c hmem hc (fun he => hne he.symm))

/-- C7 counterexample: `clean_data` DOES mutate a caller-owned table in
place.  Its column assignment (src/utils/prep.py:12) executes on the
caller's object with no defensive copy, so after `clean_data(df)` the
caller's "Unavailable" weight cell has become missing. -/
theorem clean_data_mutates_caller :
    readRef (clean_dataRef [weightDf] 0).1 0 ≠ readRef [weightDf] 0 := by decide

/-- C7 amended: `filtered` never mutates its caller-owned tables (every
derived-column assignment there follows a defensive copy); `clean_data`,
however, writes through the caller's reference, leaving the caller's
table equal to the cleaned contents (an in-place mutation whenever the
weight column's coercion changes a cell). -/
theorem mutation_discipline_amended (h : Heap) (rp rm r : Nat)
    (hp : rp < heapLen h) (hm : rm < heapLen h) (hr : r < heapLen h) :
    readRef (filteredRef h rp rm).1 rp = readRef h rp
    ∧ readRef (filteredRef h rp rm).1 rm = readRef h rm
    ∧ readRef (clean_dataRef h r).1 r = clean_data (readRef h r) := by
  refine ⟨filteredRef_reads h rp rm rp hp, filteredRef_reads h rp rm rm hm, ?_⟩
  unfold clean_dataRef
  by_cases hfbw : (readRef h r).cols.contains "Fresh Brain Weight"
  · rw [if_pos hfbw]
    dsimp only
    unfold writeRef readRef
    rw [List.getD_eq_getElem?_getD,
      List.getElem?_set_self (show r < List.length h from hr)]
    rfl
  · rw [if_neg hfbw]
    dsimp only
    unfold clean_data
    rw [if_neg hfbw]

/-- Witness for the amended C7 at a concrete three-frame heap. -/
theorem mutation_discipline_amended_witness :
    readRef (filteredRef [weightDf, scenarioPathology, scenarioMeta] 1 2).1 1
        = readRef [weightDf, scenarioPathology, scenarioMeta] 1
    ∧ readRef (filteredRef [weightDf, scenarioPathology, scenarioMeta] 1 2).1 2
        = readRef [weightDf, scenarioPathology, scenarioMeta] 2
    ∧ readRef (clean_dataRef [weightDf, scenarioPathology, scenarioMeta] 0).1 0
        = clean_data (readRef [weightDf, scenarioPathology, scenarioMeta] 0) :=
  mutation_discipline_amended [weightDf, scenarioPathology, scenarioMeta] 1 2 0
    (by decide) (by decide) (by decide)

/-- C8 counterexample: the numeric coercion of a column containing the
text "Unavailable" does NOT leave all other values unchanged — any other
non-numeric text in the column also becomes missing. -/
theorem coercion_counterexample :
    [Value.str "Unavailable", Value.str "Not applicable"].map to_numeric
        = [Value.na, Value.na]
    ∧ ([Value.str "Unavailable", Value.str "Not applicable"].map to_numeric).getD 1 .na
        ≠ [Value.str "Unavailable", Value.str "Not applicable"].getD 1 .na := by decide

theorem getD_map_to_numeric (col : List Value) (i : Nat) :
    (col.map to_numeric).getD i .na = to_numeric (col.getD i .na) := by
  induction col generalizing i with
  | nil => cases i <;> rfl
  | cons v vs ih =>
      cases i with
      | zero => rfl
      | succ j => exact ih j

theorem to_numeric_fix (v : Value) (hv : isNumOrNa v = true) : to_numeric v = v := by
  cases v with
  | num q => rfl
  | na => rfl
  | str s => simp [isNumOrNa] at hv
  | bool b => simp [isNumOrNa] at hv

/-- C8 amended: coercing a column whose cells are all numeric-or-missing
is the identity; coercion sends every "Unavailable" cell to missing; and
every numeric-or-missing cell is left unchanged — but other non-numeric
text is also sent to missing (see the counterexample). -/
theorem coercion_idempotent_amended (col : List Value) :
    ((∀ v ∈ col, isNumOrNa v = true) → col.map to_numeric = col)
    ∧ (∀ i, col.getD i .na = .str "Unavailable" →
        (col.map to_numeric).getD i .na = .na)
    ∧ (∀ i, isNumOrNa (col.getD i .na) = true →
        (col.map to_numeric).getD i .na = col.getD i .na) := by
  refine ⟨?_, ?_, ?_⟩
  · intro hall
    conv_rhs => rw [← List.map_id col]
    apply List.map_congr_left
    intro v hv
    exact to_numeric_fix v (hall v hv)
  · intro i hi
    rw [getD_map_to_numeric, hi]
    rfl
  · intro i hi
    rw [getD_map_to_numeric, to_numeric_fix _ hi]

/-- Witness for the amended C8 on concrete columns. -/
theorem coercion_idempotent_amended_witness :
    ([Value.num 3, Value.na].map to_numeric = [Value.num 3, Value.na])
    ∧ (([Value.str "Unavailable", Value.num 2].map to_numeric).getD 0 .na = .na)
    ∧ (([Value.str "Unavailable", Value.num 2].map to_numeric).getD 1 .na = Value.num 2) :=
  ⟨(coercion_idempotent_amended _).1 (by decide),
   (coercion_idempotent_amended _).2.1 0 (by decide),
   (coercion_idempotent_amended _).2.2 1 (by decide)⟩

/-- C9: each loader returns the empty frame together with a user-visible
"Failed to load data" message on any read failure, never propagating the
exception; on success `load_csv` returns the frame unchanged and
`load_data` applies exactly the one cleaning rule of `clean_data`: only
the "Fresh Brain Weight" column changes, and its "Unavailable" cells
become missing. -/
theorem loaders_error_handling (e : String) (df : DataFrame) (hw : Wf df) :
    load_data (.error e) = (emptyDF, some ("Failed to load data: " ++ e))
    ∧ load_csv (.error e) = (emptyDF, some ("Failed to load data: " ++ e))
    ∧ load_csv (.ok df) = (df, none)
    ∧ load_data (.ok df) = (clean_data df, none)
    ∧ ("Fresh Brain Weight" ∉ df.cols → clean_data df = df)
    ∧ ("Fresh Brain Weight" ∈ df.cols →
        (clean_data df).cols = df.cols
        ∧ (∀ i, (getColVals df "Fresh Brain Weight").getD i .na = .str "Unavailable" →
            (getColVals (clean_data df) "Fresh Brain Weight").getD i .na = .na)
        ∧ (∀ c ∈ df.cols, c ≠ "Fresh Brain Weight" →
            getColVals (clean_data df) c = getColVals df c)) := by
  refine ⟨rfl, rfl, rfl, rfl, (clean_data_spec df hw).1, ?_⟩
  intro hmem
  obtain ⟨hcols, hfbw, hrest⟩ := (clean_data_spec df hw).2 hmem
  refine ⟨hcols, ?_, hrest⟩
  intro i hi
  rw [hfbw, getD_map_to_numeric, hi]
  rfl

/-- Witness for C9 on a concrete donor frame. -/
theorem loaders_error_handling_witness :
    load_data (.error "file not found")
        = (emptyDF, some ("Failed to load data: " ++ "file not found"))
    ∧ load_csv (.ok weightDf2) = (weightDf2, none)
    ∧ (getColVals (clean_data weightDf2) "Fresh Brain Weight").getD 0 .na = .na
    ∧ getColVals (clean_data weightDf2) "Donor ID" = getColVals weightDf2 "Donor ID" := by
  obtain ⟨h1, h2, h3, h4, h5, h6⟩ := loaders_error_handling "file not found" weightDf2
    (by decide)
  obtain ⟨hc, hu, hrest⟩ := h6 (by decide)
  exact ⟨h1, h3, hu 0 (by decide), hrest "Donor ID" (by decide) (by decide)⟩

end SeaAD
